import Mathlib

/-!
Verification of the medical-clinic FAQ RAG engine.

Shallow embedding of the core request pipeline of `backend/rag/faq.py`
(`FAQRagSystem`), the index adapter of `backend/rag/vector_store.py`
(`VectorStoreManager`), and the response schema of
`backend/models/schemas.py`.  External collaborators (the retriever, the
LLM, the similarity search of the vector store, and the collection count)
are modelled as oracle functions carried in an `Env` record; fallible calls
return `Except String`.  Python floats are modelled as rationals.  Python
strings are modelled as Lean strings, with lowercasing, stripping,
prefix tests and substring containment implemented over the character
list so that they compute by kernel reduction.

CPython's `list(set(xs))` iterates the set in a hash-dependent order that
varies between interpreter processes (hash randomisation); it is modelled
by an explicit order parameter `setOrder : List String → List String`,
constrained where needed by `IsSetOrder` (the output is duplicate-free and
has exactly the members of the input).
-/

set_option maxRecDepth 8000

namespace MedFAQ

/-! ## String primitives (Python `str.lower`, `str.strip`, `str.startswith`, `in`) -/

/-- Python `s.lower()`: character-wise lowercasing. -/
def strLower (s : String) : String := ⟨s.data.map Char.toLower⟩

/-- Python `s.strip()`: drop whitespace from both ends. -/
def strStrip (s : String) : String :=
  ⟨((s.data.dropWhile Char.isWhitespace).reverse.dropWhile Char.isWhitespace).reverse⟩

/-- Python `s.startswith(p)`. -/
def strStartsWith (s p : String) : Bool := p.data.isPrefixOf s.data

/-- Containment of one character list inside another (Python `needle in hay`). -/
def charsIn (needle : List Char) : List Char → Bool
  | [] => needle.isEmpty
  | c :: t => needle.isPrefixOf (c :: t) || charsIn needle t

/-- Python `needle in hay` on strings: substring containment. -/
def strIn (needle hay : String) : Bool := charsIn needle.data hay.data

/-- Python `s[:n]`: take the first `n` characters. -/
def pySlice (s : String) (n : Nat) : String := ⟨s.data.take n⟩

/-- Python `list(dict.fromkeys(l))`: deduplicate keeping the first occurrence. -/
def dedupKeepFirst (l : List String) : List String :=
  l.foldl (fun acc x => if x ∈ acc then acc else acc ++ [x]) []

/-- A function is a valid model of CPython's `list(set(·))` when its output is
duplicate-free and has exactly the members of its input; the order is
hash-seed dependent and hence unconstrained. -/
def IsSetOrder (o : List String → List String) : Prop :=
  ∀ l, (o l).Nodup ∧ ∀ x, x ∈ o l ↔ x ∈ l

/-! ## Data model (`backend/models/schemas.py` and langchain `Document`) -/

/-- A langchain `Document`: `page_content` plus the metadata keys the engine
reads (`tag`, `category`); a key absent from the metadata dict is `none`. -/
structure Doc where
  page_content : String
  meta_tag : Option String
  meta_category : Option String
deriving DecidableEq

/-- One turn of caller-supplied conversation history. -/
structure Turn where
  role : String
  content : String
deriving DecidableEq

/-- `SourceDocument` of `schemas.py`. -/
structure SourceDocument where
  content : String
  tag : String
  relevance_score : ℚ
deriving DecidableEq

/-- `FAQResponse` of `schemas.py`. -/
structure FAQResponse where
  answer : String
  sources : List SourceDocument
  confidence : String
  follow_up_suggestions : List String
deriving DecidableEq

/-! ## `FAQRagSystem._convert_distance_to_similarity` (faq.py lines 225-240) -/

/-- `_convert_distance_to_similarity`: branch on the sign of the distance,
then clamp into `[0, 1]` with `max(0.0, min(1.0, similarity))`. -/
def convert_distance_to_similarity (distance : ℚ) : ℚ :=
  let similarity := if distance < 0 then 1 - (|distance| / 2) else 1 - (distance / 2)
  max 0 (min 1 similarity)

/-! ## Python `round(x, 3)` -/

/-- Python `round(score, 3)` on the mathematical value: scale by 1000,
round to the nearest integer with ties going to the even integer, unscale. -/
def pyRound3 (x : ℚ) : ℚ :=
  let f : ℤ := ⌊x * 1000⌋
  let r : ℚ := x * 1000 - (f : ℚ)
  let n : ℤ := if r < 1/2 then f else if 1/2 < r then f + 1 else if f % 2 = 0 then f else f + 1
  (n : ℚ) / 1000

/-! ## Small-talk interception (`_is_conversational_query`, faq.py lines 203-223) -/

def greetings : List String :=
  ["hi", "hello", "hey", "good morning", "good afternoon", "good evening", "greetings"]

def status_queries : List String :=
  ["how are you", "how r you", "how do you do", "whats up", "what\x27s up", "how are things"]

def thanks_phrases : List String :=
  ["thank you", "thanks", "thx", "appreciate it", "thank u"]

def goodbye_phrases : List String :=
  ["bye", "goodbye", "see you", "take care", "good bye", "later", "have a good day"]

def greeting_answer : String :=
  "Hello! I\x27m your clinic assistant. I can help you with information about our clinic hours, location, insurance, billing, appointment policies, and visit preparation. What would you like to know?"

def status_answer : String :=
  "I\x27m doing great, thank you for asking! I\x27m here to help answer your questions about our clinic. What information can I provide for you today?"

def thanks_answer : String :=
  "You\x27re very welcome! Feel free to ask if you have any other questions about our clinic services or policies."

def goodbye_answer : String :=
  "Goodbye! Have a wonderful day. Feel free to reach out anytime you have questions about our clinic."

/-- `_is_conversational_query`: lowercase and strip the question, then test the
four fixed phrase lists in order.  Greeting/thanks/goodbye use equality or a
prefix with a single fixed trailing character (`" "` and `","` for greetings,
`" "` and `"!"` for thanks and goodbyes); status checks use substring
containment. -/
def is_conversational_query (question : String) : Bool × String :=
  let ql := strStrip (strLower question)
  if greetings.any (fun g => decide (ql = g) || strStartsWith ql (g ++ " ") || strStartsWith ql (g ++ ",")) then
    (true, greeting_answer)
  else if status_queries.any (fun sq => strIn sq ql) then
    (true, status_answer)
  else if thanks_phrases.any (fun t => decide (ql = t) || strStartsWith ql (t ++ " ") || strStartsWith ql (t ++ "!")) then
    (true, thanks_answer)
  else if goodbye_phrases.any (fun g => decide (ql = g) || strStartsWith ql (g ++ " ") || strStartsWith ql (g ++ "!")) then
    (true, goodbye_answer)
  else
    (false, "")

/-! ## Oracle environment for `FAQRagSystem.ask`

The retriever (`self.retriever.invoke`), the LLM call at the end of the
LCEL chain, the scored similarity search
(`self.vector_store_manager.similarity_search`), the collection count and
the readiness of the chain are external collaborators; each fallible one
returns `Except String`. -/

structure Env where
  retrieve : String → Except String (List Doc)
  llm : String → Except String String
  search : String → Nat → Except String (List (Doc × ℚ))
  doc_count : Nat
  chain_ready : Bool
  setOrder : List String → List String

/-! ## Generation chain (`_format_docs` and `_create_qa_chain`, faq.py lines 159-201) -/

/-- `_format_docs`: join the page contents with blank lines. -/
def format_docs (docs : List Doc) : String :=
  String.intercalate "\n\n" (docs.map (·.page_content))

/-- The fixed instruction template of `_create_qa_chain` with its `context`
and `question` slots filled. -/
def template_fill (context question : String) : String :=
  "You are a helpful medical clinic assistant. Answer questions concisely and directly.\n\nContext:\n"
    ++ context
    ++ "\n\nQuestion: " ++ question
    ++ "\n\nInstructions:\n- Keep answers brief and to the point (2-4 sentences maximum)\n- Use bullet points for lists or multiple items\n- If context is insufficient, give a short response directing them to contact the clinic\n- Be friendly but concise , always professional redirect to clinic for complex queries\n\nAnswer:"

/-- `qa_chain.invoke(input)`: the LCEL chain retrieves with the whole input,
formats the retrieved documents as the `context` slot, and passes the input
itself through (`RunnablePassthrough`) as the `question` slot. -/
def qa_chain_invoke (env : Env) (input : String) : Except String String :=
  match env.retrieve input with
  | .error e => .error e
  | .ok docs => env.llm (template_fill (format_docs docs) input)

/-- Step 3 of `ask` (faq.py lines 279-286): prefix the question with the last
three turns of the conversation history when a non-empty history is given. -/
def contextualize (question : String) : List Turn → String
  | [] => question
  | t :: ts =>
    let history := t :: ts
    let recent := history.drop (history.length - 3)
    let context_str := String.intercalate "\n" (recent.map (fun m => m.role ++ ": " ++ m.content))
    "Previous conversation:\n" ++ context_str ++ "\n\nCurrent question: " ++ question

/-! ## Attribution scoring (faq.py lines 292-306) -/

/-- Lines 295-306 of `ask`: for one generation-retrieved document, look up the
first scored search result with identical page content (score defaults to 0.0
when none matches), convert its distance to a similarity, truncate the content
to 200 characters with an ellipsis when longer, and round the score to three
decimals. -/
def mk_source (search_results : List (Doc × ℚ)) (doc : Doc) : SourceDocument :=
  let score : ℚ :=
    match search_results.find? (fun p => p.1.page_content == doc.page_content) with
    | some p => convert_distance_to_similarity p.2
    | none => 0
  { content := if doc.page_content.length > 200 then pySlice doc.page_content 200 ++ "..." else doc.page_content
    tag := doc.meta_tag.getD "unknown"
    relevance_score := pyRound3 score }

/-- The sources list: the first three generation-retrieved documents, scored. -/
def mk_sources (search_results : List (Doc × ℚ)) (source_docs : List Doc) : List SourceDocument :=
  (source_docs.take 3).map (mk_source search_results)

/-- Confidence tiering (faq.py lines 308-313): strict thresholds on the first
source\x27s relevance score; "low" when the sources list is empty. -/
def confidence_of (sources : List SourceDocument) : String :=
  match sources with
  | [] => "low"
  | s0 :: _ =>
    if s0.relevance_score > 3/5 then "high"
    else if s0.relevance_score > 2/5 then "medium"
    else "low"

/-! ## Follow-up generation (`_generate_follow_ups`, faq.py lines 338-385) -/

def generic_suggestions : List String :=
  ["What are your clinic hours?", "What insurance do you accept?"]

def fallback_suggestion : String := "What else can I help you with?"

/-- The fixed per-category suggestion lists. -/
def category_suggestions (c : String) : Option (List String) :=
  if c = "clinic_details" then
    some ["What are your clinic hours?", "Where is the clinic located?", "Is parking available?"]
  else if c = "insurance_billing" then
    some ["What insurance providers do you accept?", "What payment methods can I use?", "Can you explain your billing policies?"]
  else if c = "visit_preparation" then
    some ["What documents do I need for my first visit?", "What should I bring to my appointment?"]
  else if c = "policies" then
    some ["What\x27s your cancellation policy?", "What are your COVID-19 protocols?", "What happens if I\x27m late?"]
  else none

/-- The list comprehension of line 349-353: the non-empty `category` metadata
values of the retrieved documents, in encounter order, before `set()` dedup. -/
def doc_categories (source_docs : List Doc) : List String :=
  (source_docs.map (fun d => d.meta_category.getD "")).filter (fun c => c ≠ "")

/-- `_generate_follow_ups`.  `setOrder` models `list(set(...))` on line 349. -/
def generate_follow_ups (question : String) (source_docs : List Doc)
    (setOrder : List String → List String) : List String :=
  if source_docs.isEmpty then generic_suggestions
  else
    let categories := setOrder (doc_categories source_docs)
    let follow_ups := (categories.take 2).flatMap (fun category =>
      match category_suggestions category with
      | some suggestions =>
          (suggestions.take 2).filter (fun s => !(strIn (strLower s) (strLower question)))
      | none => [])
    let deduped := dedupKeepFirst follow_ups
    if deduped.isEmpty then [fallback_suggestion] else deduped.take 2

/-! ## `FAQRagSystem.ask` (faq.py lines 242-336) -/

def conv_follow_ups : List String :=
  ["What are your clinic hours?", "What insurance providers do you accept?"]

def not_ready_response : FAQResponse :=
  { answer := "I\x27m not properly initialized yet. Please make sure the knowledge base is loaded."
    sources := []
    confidence := "low"
    follow_up_suggestions := [] }

def no_docs_response : FAQResponse :=
  { answer := "I don\x27t have any information loaded yet. Please contact the clinic administrator."
    sources := []
    confidence := "low"
    follow_up_suggestions := [] }

/-- The fixed apologetic result of the `except` block (faq.py lines 327-336). -/
def error_fallback_response : FAQResponse :=
  { answer := "I encountered an error processing your question. Please try rephrasing or contact our clinic directly."
    sources := []
    confidence := "low"
    follow_up_suggestions := [] }

/-- The `try` block of `ask` (faq.py lines 278-325): contextualize, retrieve,
generate, score, tier, suggest.  Any failure of a downstream call aborts the
block with that error. -/
def askTry (env : Env) (question : String) (history : List Turn) : Except String FAQResponse :=
  match env.retrieve (contextualize question history) with
  | .error e => .error e
  | .ok source_docs =>
    match qa_chain_invoke env (contextualize question history) with
    | .error e => .error e
    | .ok answer =>
      match env.search question 5 with
      | .error e => .error e
      | .ok search_results =>
        .ok { answer := answer
              sources := mk_sources search_results source_docs
              confidence := confidence_of (mk_sources search_results source_docs)
              follow_up_suggestions := generate_follow_ups question source_docs env.setOrder }

/-- `FAQRagSystem.ask`: small-talk interception, readiness guard, empty-index
guard, then the `try` block with the apologetic fallback on any error. -/
def ask (env : Env) (question : String) (history : List Turn) : FAQResponse :=
  let conv := is_conversational_query question
  if conv.1 then
    { answer := conv.2
      sources := []
      confidence := "high"
      follow_up_suggestions := conv_follow_ups }
  else if !env.chain_ready then not_ready_response
  else if env.doc_count = 0 then no_docs_response
  else
    match askTry env question history with
    | .ok r => r
    | .error _ => error_fallback_response

/-! ## Document preparation (`prepare_documents` and `_extract_keywords`, faq.py lines 79-130) -/

/-- An intent record; a key absent from the dict is `none`. -/
structure Intent where
  tag : Option String
  category : Option String
  patterns : Option (List String)
  responses : Option (List String)

def intent_tag (i : Intent) : String := i.tag.getD ""

/-- `intent.get('category', tag)`: the default is the already-read tag. -/
def intent_category (i : Intent) : String := i.category.getD (intent_tag i)

def intent_patterns (i : Intent) : List String := i.patterns.getD []

def intent_responses (i : Intent) : List String := i.responses.getD []

/-- The fixed trigger-substring-to-keywords map of `_extract_keywords`. -/
def keyword_map : List (String × List String) :=
  [("covid", ["coronavirus", "covid-19", "pandemic", "mask", "protocol", "safety"]),
   ("insurance", ["coverage", "provider", "billing", "payment"]),
   ("hours", ["schedule", "open", "closed", "time", "operation"]),
   ("location", ["address", "where", "parking", "directions"]),
   ("cancellation", ["cancel", "reschedule", "policy"]),
   ("appointment", ["visit", "booking", "schedule"])]

/-- The keyword list of `_extract_keywords` before the final `list(set(...))`:
the category followed by the keyword sets of every trigger substring found in
the lowercased join of patterns and responses. -/
def raw_keywords (category : String) (patterns responses : List String) : List String :=
  let text := strLower (String.intercalate " " (patterns ++ responses))
  category :: keyword_map.flatMap (fun kv => if strIn kv.1 text then kv.2 else [])

/-- `_extract_keywords`; `setOrder` models the final `list(set(keywords))`. -/
def extract_keywords (category : String) (patterns responses : List String)
    (setOrder : List String → List String) : List String :=
  setOrder (raw_keywords category patterns responses)

/-- The `page_content` template of `prepare_documents` (faq.py line 95). -/
def compose_content (category pattern_text response_text keyword_text : String) : String :=
  "Category: " ++ category ++ "\nQuestions: " ++ pattern_text ++ "\nAnswer: "
    ++ response_text ++ "\nKeywords: " ++ keyword_text

/-- The loop body of `prepare_documents` for one intent. -/
def prepare_document (i : Intent) (setOrder : List String → List String) : Doc :=
  let pattern_text := String.intercalate " | " (intent_patterns i)
  let response_text := String.intercalate " | " (intent_responses i)
  let keywords := extract_keywords (intent_category i) (intent_patterns i) (intent_responses i) setOrder
  let keyword_text := String.intercalate " " keywords
  { page_content := compose_content (intent_category i) pattern_text response_text keyword_text
    meta_tag := some (intent_tag i)
    meta_category := some (intent_category i) }

/-- `prepare_documents` over the loaded intents. -/
def prepare_documents (intents : List Intent) (setOrder : List String → List String) : List Doc :=
  intents.map (prepare_document · setOrder)

/-! ## `VectorStoreManager` (vector_store.py) -/

/-- The underlying Chroma handle once attached: its `count()` call and its
scored search, both fallible at the provider level. -/
structure ProviderStore where
  count_result : Except String Nat
  search_impl : String → Nat → Except String (List (Doc × ℚ))

/-- A `VectorStoreManager` is uninitialized while `self.vector_store is None`
(no successful `create_vector_store` or `load_vector_store`). -/
structure VectorStoreManager where
  vector_store : Option ProviderStore

/-- `VectorStoreManager.similarity_search` (lines 78-93): raise the fixed
`ValueError` when uninitialized, otherwise delegate to the provider. -/
def similarity_search (m : VectorStoreManager) (query : String) (k : Nat) :
    Except String (List (Doc × ℚ)) :=
  match m.vector_store with
  | none => .error "Vector store not initialized. Call create_vector_store or load_vector_store first."
  | some vs => vs.search_impl query k

/-- `VectorStoreManager.get_collection_count` (lines 114-122): 0 when
uninitialized; provider errors are caught and mapped to 0. -/
def get_collection_count (m : VectorStoreManager) : Nat :=
  match m.vector_store with
  | none => 0
  | some vs =>
    match vs.count_result with
    | .ok n => n
    | .error _ => 0

/-! ## Helper lemmas: numeric bounds -/

lemma convert_nonneg (d : ℚ) : 0 ≤ convert_distance_to_similarity d :=
  le_max_left 0 _

lemma convert_le_one (d : ℚ) : convert_distance_to_similarity d ≤ 1 := by
  unfold convert_distance_to_similarity
  exact max_le (by norm_num) (min_le_left 1 _)

lemma pyRound3_nonneg {x : ℚ} (h0 : 0 ≤ x) : 0 ≤ pyRound3 x := by
  unfold pyRound3
  have hf : (0 : ℤ) ≤ ⌊x * 1000⌋ := Int.floor_nonneg.mpr (by positivity)
  have hn : (0 : ℤ) ≤ (if x * 1000 - (⌊x * 1000⌋ : ℚ) < 1/2 then ⌊x * 1000⌋
      else if 1/2 < x * 1000 - (⌊x * 1000⌋ : ℚ) then ⌊x * 1000⌋ + 1
      else if ⌊x * 1000⌋ % 2 = 0 then ⌊x * 1000⌋ else ⌊x * 1000⌋ + 1) := by
    split_ifs <;> omega
  have : (0 : ℚ) ≤ ((if x * 1000 - (⌊x * 1000⌋ : ℚ) < 1/2 then ⌊x * 1000⌋
      else if 1/2 < x * 1000 - (⌊x * 1000⌋ : ℚ) then ⌊x * 1000⌋ + 1
      else if ⌊x * 1000⌋ % 2 = 0 then ⌊x * 1000⌋ else ⌊x * 1000⌋ + 1 : ℤ) : ℚ) := by
    exact_mod_cast hn
  positivity

lemma pyRound3_le_one {x : ℚ} (h1 : x ≤ 1) : pyRound3 x ≤ 1 := by
  unfold pyRound3
  have hx : x * 1000 ≤ 1000 := by linarith
  have hf : ⌊x * 1000⌋ ≤ 1000 := by
    have : ⌊x * 1000⌋ ≤ ⌊(1000 : ℚ)⌋ := Int.floor_le_floor hx
    simpa using this
  have key : (if x * 1000 - (⌊x * 1000⌋ : ℚ) < 1/2 then ⌊x * 1000⌋
      else if 1/2 < x * 1000 - (⌊x * 1000⌋ : ℚ) then ⌊x * 1000⌋ + 1
      else if ⌊x * 1000⌋ % 2 = 0 then ⌊x * 1000⌋ else ⌊x * 1000⌋ + 1) ≤ 1000 := by
    rcases eq_or_lt_of_le hf with heq | hlt
    · have hle : (⌊x * 1000⌋ : ℚ) ≤ x * 1000 := Int.floor_le _
      have hr0 : x * 1000 - (⌊x * 1000⌋ : ℚ) ≤ 0 := by
        have : ((1000 : ℤ) : ℚ) = (1000 : ℚ) := by norm_num
        rw [heq]
        linarith [hx, this]
      split_ifs <;> first | omega | linarith
    · split_ifs <;> omega
  have keyQ : ((if x * 1000 - (⌊x * 1000⌋ : ℚ) < 1/2 then ⌊x * 1000⌋
      else if 1/2 < x * 1000 - (⌊x * 1000⌋ : ℚ) then ⌊x * 1000⌋ + 1
      else if ⌊x * 1000⌋ % 2 = 0 then ⌊x * 1000⌋ else ⌊x * 1000⌋ + 1 : ℤ) : ℚ) ≤ 1000 := by
    exact_mod_cast key
  linarith

lemma pyRound3_6001 : pyRound3 (6001/10000) = 3/5 := by
  unfold pyRound3
  have hf : ⌊(6001 : ℚ)/10000 * 1000⌋ = 600 := by
    rw [Int.floor_eq_iff]
    norm_num
  rw [hf]
  norm_num

/-! ## Helper lemmas: deduplication and set-order models -/

lemma mem_dedup_foldl (l : List String) :
    ∀ (acc : List String) (x : String),
      (x ∈ l.foldl (fun acc x => if x ∈ acc then acc else acc ++ [x]) acc) ↔ (x ∈ acc ∨ x ∈ l) := by
  induction l with
  | nil => intro acc x; simp
  | cons y t ih =>
    intro acc x
    simp only [List.foldl_cons, ih, List.mem_cons]
    by_cases hy : y ∈ acc
    · rw [if_pos hy]
      constructor
      · rintro (h | h)
        · exact Or.inl h
        · exact Or.inr (Or.inr h)
      · rintro (h | h | h)
        · exact Or.inl h
        · exact Or.inl (h ▸ hy)
        · exact Or.inr h
    · rw [if_neg hy]
      simp only [List.mem_append, List.mem_singleton]
      tauto

lemma nodup_dedup_foldl (l : List String) :
    ∀ acc : List String, acc.Nodup →
      (l.foldl (fun acc x => if x ∈ acc then acc else acc ++ [x]) acc).Nodup := by
  induction l with
  | nil => intro acc h; simpa using h
  | cons y t ih =>
    intro acc hacc
    simp only [List.foldl_cons]
    by_cases hy : y ∈ acc
    · rw [if_pos hy]; exact ih acc hacc
    · rw [if_neg hy]
      refine ih _ ?_
      rw [List.nodup_append]
      refine ⟨hacc, List.nodup_singleton y, ?_⟩
      intro a ha hb
      rw [List.mem_singleton] at hb
      exact hy (hb ▸ ha)

lemma mem_dedupKeepFirst {x : String} {l : List String} :
    x ∈ dedupKeepFirst l ↔ x ∈ l := by
  unfold dedupKeepFirst
  rw [mem_dedup_foldl]
  simp

lemma nodup_dedupKeepFirst (l : List String) : (dedupKeepFirst l).Nodup :=
  nodup_dedup_foldl l [] List.nodup_nil

lemma isSetOrder_dedupKeepFirst : IsSetOrder dedupKeepFirst :=
  fun l => ⟨nodup_dedupKeepFirst l, fun _ => mem_dedupKeepFirst⟩

lemma isSetOrder_rev : IsSetOrder (fun l => (dedupKeepFirst l).reverse) := by
  intro l
  refine ⟨by simpa using nodup_dedupKeepFirst l, fun x => ?_⟩
  simp [mem_dedupKeepFirst]

/-- Two duplicate-free lists with the same members are permutations of each
other. -/
lemma perm_of_nodup_mem_iff {l₁ l₂ : List String} (h₁ : l₁.Nodup) (h₂ : l₂.Nodup)
    (hm : ∀ x, x ∈ l₁ ↔ x ∈ l₂) : l₁.Perm l₂ := by
  rw [List.perm_iff_count]
  intro a
  by_cases ha : a ∈ l₁
  · rw [List.count_eq_one_of_mem h₁ ha, List.count_eq_one_of_mem h₂ ((hm a).mp ha)]
  · rw [List.count_eq_zero_of_not_mem ha,
      List.count_eq_zero_of_not_mem (fun hb => ha ((hm a).mpr hb))]

/-! ## Helper lemmas: unfolding `ask` -/

lemma ask_guards {env : Env} {q : String} {h : List Turn}
    (hconv : (is_conversational_query q).1 = false)
    (hready : env.chain_ready = true) (hcount : env.doc_count ≠ 0) :
    ask env q h = (match askTry env q h with
      | .ok r => r
      | .error _ => error_fallback_response) := by
  simp only [ask, hconv, hready, hcount, Bool.false_eq_true, if_false, Bool.not_true,
    if_neg hcount]

lemma ask_of_ok {env : Env} {q : String} {h : List Turn} {r : FAQResponse}
    (hconv : (is_conversational_query q).1 = false)
    (hready : env.chain_ready = true) (hcount : env.doc_count ≠ 0)
    (hr : askTry env q h = .ok r) : ask env q h = r := by
  rw [ask_guards hconv hready hcount, hr]

lemma ask_of_error {env : Env} {q : String} {h : List Turn} {e : String}
    (hconv : (is_conversational_query q).1 = false)
    (hready : env.chain_ready = true) (hcount : env.doc_count ≠ 0)
    (hr : askTry env q h = .error e) : ask env q h = error_fallback_response := by
  rw [ask_guards hconv hready hcount, hr]

lemma askTry_ok_inv {env : Env} {q : String} {h : List Turn} {r : FAQResponse}
    (hr : askTry env q h = .ok r) :
    ∃ docs ans sr,
      env.retrieve (contextualize q h) = .ok docs ∧
      env.llm (template_fill (format_docs docs) (contextualize q h)) = .ok ans ∧
      env.search q 5 = .ok sr ∧
      r = { answer := ans
            sources := mk_sources sr docs
            confidence := confidence_of (mk_sources sr docs)
            follow_up_suggestions := generate_follow_ups q docs env.setOrder } := by
  cases hret : env.retrieve (contextualize q h) with
  | error e => simp [askTry, hret] at hr
  | ok docs =>
    cases hllm : env.llm (template_fill (format_docs docs) (contextualize q h)) with
    | error e => simp [askTry, qa_chain_invoke, hret, hllm] at hr
    | ok ans =>
      cases hsr : env.search q 5 with
      | error e => simp [askTry, qa_chain_invoke, hret, hllm, hsr] at hr
      | ok sr =>
        refine ⟨docs, ans, sr, rfl, hllm, rfl, ?_⟩
        simp only [askTry, qa_chain_invoke, hret, hllm, hsr] at hr
        exact (Except.ok.injEq _ _ ▸ hr).symm

lemma askTry_of_oracles {env : Env} {q : String} {h : List Turn}
    {docs : List Doc} {ans : String} {sr : List (Doc × ℚ)}
    (hret : env.retrieve (contextualize q h) = .ok docs)
    (hllm : env.llm (template_fill (format_docs docs) (contextualize q h)) = .ok ans)
    (hsr : env.search q 5 = .ok sr) :
    askTry env q h = .ok
      { answer := ans
        sources := mk_sources sr docs
        confidence := confidence_of (mk_sources sr docs)
        follow_up_suggestions := generate_follow_ups q docs env.setOrder } := by
  simp only [askTry, qa_chain_invoke, hret, hllm, hsr]

/-! ## Helper lemmas: source attribution bounds -/

lemma mk_source_score_bounds (sr : List (Doc × ℚ)) (doc : Doc) :
    0 ≤ (mk_source sr doc).relevance_score ∧ (mk_source sr doc).relevance_score ≤ 1 := by
  unfold mk_source
  cases hf : sr.find? (fun p => p.1.page_content == doc.page_content) with
  | none =>
    simp only [hf]
    exact ⟨pyRound3_nonneg le_rfl, pyRound3_le_one (by norm_num)⟩
  | some p =>
    simp only [hf]
    exact ⟨pyRound3_nonneg (convert_nonneg _), pyRound3_le_one (convert_le_one _)⟩

lemma mk_source_content_cases (sr : List (Doc × ℚ)) (doc : Doc) :
    (doc.page_content.length > 200 →
      (mk_source sr doc).content = pySlice doc.page_content 200 ++ "...") ∧
    (doc.page_content.length ≤ 200 → (mk_source sr doc).content = doc.page_content) := by
  unfold mk_source
  constructor
  · intro hgt; simp [hgt]
  · intro hle; simp [Nat.not_lt.mpr hle]

lemma mk_source_content_length (sr : List (Doc × ℚ)) (doc : Doc) :
    (mk_source sr doc).content.length ≤ 203 := by
  by_cases hgt : doc.page_content.length > 200
  · rw [(mk_source_content_cases sr doc).1 hgt]
    rw [String.length_append]
    obtain ⟨cs⟩ := doc.page_content
    simp only [pySlice, String.mk_length]
    have h1 : (cs.take 200).length ≤ 200 := List.length_take_le 200 cs
    have h2 : ("..." : String).length = 3 := by decide
    omega
  · rw [(mk_source_content_cases sr doc).2 (Nat.not_lt.mp hgt)]
    omega

lemma mk_sources_length_le (sr : List (Doc × ℚ)) (docs : List Doc) :
    (mk_sources sr docs).length ≤ 3 ∧ (mk_sources sr docs).length ≤ docs.length := by
  unfold mk_sources
  rw [List.length_map, List.length_take]
  exact ⟨min_le_left _ _, min_le_right _ _⟩

lemma mem_mk_sources {s : SourceDocument} {sr : List (Doc × ℚ)} {docs : List Doc}
    (hs : s ∈ mk_sources sr docs) : ∃ doc ∈ docs, s = mk_source sr doc := by
  unfold mk_sources at hs
  obtain ⟨doc, hdoc, rfl⟩ := List.mem_map.mp hs
  exact ⟨doc, List.mem_of_mem_take hdoc, rfl⟩

/-! ## Spec-side definitions used to state the claims -/

/-- The confidence tier as the spec words it: a function of the top
relevance score alone, with strict thresholds 0.6 and 0.4. -/
def tier_spec (s : ℚ) : String :=
  if s > 3/5 then "high" else if s > 2/5 then "medium" else "low"

lemma confidence_of_eq_tier (l : List SourceDocument) :
    confidence_of l = (match l.head? with
      | none => "low"
      | some s0 => tier_spec s0.relevance_score) := by
  cases l <;> rfl

/-! ## Claim theorems -/

/-- C1: for every distance `d`, `_convert_distance_to_similarity d` equals
`clamp(1 - |d|/2, 0, 1)`; in particular it maps 0 to 1, 2 to 0, -2 to 0 and
1 to 0.5. -/
theorem c1_distance_similarity (d : ℚ) :
    convert_distance_to_similarity d = max 0 (min 1 (1 - |d| / 2)) ∧
    convert_distance_to_similarity 0 = 1 ∧
    convert_distance_to_similarity 2 = 0 ∧
    convert_distance_to_similarity (-2) = 0 ∧
    convert_distance_to_similarity 1 = 1/2 := by
  have hmain : ∀ x : ℚ, convert_distance_to_similarity x = max 0 (min 1 (1 - |x| / 2)) := by
    intro x
    unfold convert_distance_to_similarity
    rcases lt_or_le x 0 with hx | hx
    · rw [if_pos hx]
    · rw [if_neg (not_lt.mpr hx), abs_of_nonneg hx]
  refine ⟨hmain d, ?_, ?_, ?_, ?_⟩ <;> rw [hmain] <;> norm_num

/-- C2: on the retrieval path the returned confidence is a pure function of
the first source\x27s relevance score with strict thresholds (`low` when the
sources list is empty); 0.61 gives "high", 0.6 gives "medium", 0.41 gives
"medium", 0.4 gives "low". -/
theorem c2_confidence_tiering (env : Env) (q : String) (h : List Turn) (r : FAQResponse)
    (hconv : (is_conversational_query q).1 = false)
    (hready : env.chain_ready = true) (hcount : env.doc_count ≠ 0)
    (hr : askTry env q h = .ok r) :
    ask env q h = r ∧
    r.confidence = (match r.sources.head? with
      | none => "low"
      | some s0 => tier_spec s0.relevance_score) ∧
    tier_spec (61/100) = "high" ∧
    tier_spec (3/5) = "medium" ∧
    tier_spec (41/100) = "medium" ∧
    tier_spec (2/5) = "low" := by
  obtain ⟨docs, ans, sr, hret, hllm, hsr, hrec⟩ := askTry_ok_inv hr
  refine ⟨ask_of_ok hconv hready hcount hr, ?_, ?_, ?_, ?_, ?_⟩
  · rw [hrec]
    exact confidence_of_eq_tier (mk_sources sr docs)
  · unfold tier_spec; rw [if_pos (by norm_num)]
  · unfold tier_spec; rw [if_neg (by norm_num), if_pos (by norm_num)]
  · unfold tier_spec; rw [if_neg (by norm_num), if_pos (by norm_num)]
  · unfold tier_spec; rw [if_neg (by norm_num), if_neg (by norm_num)]

def doc_w : Doc :=
  { page_content := "Category: clinic_details\nQuestions: What are your hours?\nAnswer: 9am-5pm Mon-Fri.\nKeywords: hours"
    meta_tag := some "hours_0"
    meta_category := some "clinic_details" }

def env_c2 : Env :=
  { retrieve := fun _ => .ok [doc_w]
    llm := fun _ => .ok "We are open 9am-5pm."
    search := fun _ _ => .ok [(doc_w, 39/50)]
    doc_count := 1
    chain_ready := true
    setOrder := dedupKeepFirst }

theorem c2_confidence_tiering_witness : tier_spec ((61:ℚ)/100) = "high" :=
  (c2_confidence_tiering env_c2 "When are you open?" [] _ (by decide) rfl (by decide)
    (askTry_of_oracles rfl rfl rfl)).2.2.1

/-- C5: past the small-talk and readiness guards, every failure of the
downstream retrieval, generation or attribution-scoring call is caught and
mapped to the fixed apologetic answer with confidence "low" and no sources;
`ask` never propagates the error. -/
theorem c5_error_fallback (env : Env) (q : String) (h : List Turn) (e : String)
    (hconv : (is_conversational_query q).1 = false)
    (hready : env.chain_ready = true) (hcount : env.doc_count ≠ 0) :
    (askTry env q h = .error e → ask env q h = error_fallback_response) ∧
    (env.retrieve (contextualize q h) = .error e → ask env q h = error_fallback_response) ∧
    (∀ docs, env.retrieve (contextualize q h) = .ok docs →
      env.llm (template_fill (format_docs docs) (contextualize q h)) = .error e →
      ask env q h = error_fallback_response) ∧
    (∀ docs ans, env.retrieve (contextualize q h) = .ok docs →
      env.llm (template_fill (format_docs docs) (contextualize q h)) = .ok ans →
      env.search q 5 = .error e → ask env q h = error_fallback_response) ∧
    error_fallback_response.confidence = "low" ∧
    error_fallback_response.sources = [] := by
  refine ⟨fun he => ask_of_error hconv hready hcount he, fun hret => ?_,
    fun docs hret hllm => ?_, fun docs ans hret hllm hsr => ?_, rfl, rfl⟩
  · exact ask_of_error hconv hready hcount
      (show askTry env q h = .error e by simp [askTry, hret])
  · exact ask_of_error hconv hready hcount
      (show askTry env q h = .error e by simp [askTry, qa_chain_invoke, hret, hllm])
  · exact ask_of_error hconv hready hcount
      (show askTry env q h = .error e by simp [askTry, qa_chain_invoke, hret, hllm, hsr])

def env_c5 : Env :=
  { retrieve := fun _ => .error "connection refused"
    llm := fun _ => .error "connection refused"
    search := fun _ _ => .error "connection refused"
    doc_count := 4
    chain_ready := true
    setOrder := dedupKeepFirst }

theorem c5_error_fallback_witness :
    ask env_c5 "What are your billing policies?" [] = error_fallback_response :=
  (c5_error_fallback env_c5 "What are your billing policies?" [] "connection refused"
    (by decide) rfl (by decide)).2.1 rfl

/-- C7: on a manager with no successful create or load, `similarity_search`
raises the fixed "not initialized" error for every query while
`get_collection_count` returns 0; provider-level count errors are caught and
mapped to 0. -/
theorem c7_uninitialized_store (m : VectorStoreManager) (hm : m.vector_store = none) :
    (∀ query k, similarity_search m query k =
      .error "Vector store not initialized. Call create_vector_store or load_vector_store first.") ∧
    get_collection_count m = 0 ∧
    (∀ (vs : ProviderStore) (e : String), vs.count_result = .error e →
      get_collection_count ⟨some vs⟩ = 0) := by
  refine ⟨fun query k => ?_, ?_, fun vs e he => ?_⟩
  · simp [similarity_search, hm]
  · simp [get_collection_count, hm]
  · simp [get_collection_count, he]

theorem c7_uninitialized_store_witness :
    get_collection_count ⟨none⟩ = 0 ∧
    similarity_search ⟨none⟩ "clinic hours" 3 =
      .error "Vector store not initialized. Call create_vector_store or load_vector_store first." :=
  ⟨(c7_uninitialized_store ⟨none⟩ rfl).2.1,
   (c7_uninitialized_store ⟨none⟩ rfl).1 "clinic hours" 3⟩

/-! ## C3: which string fills the question slot -/

def env_c3 : Env :=
  { retrieve := fun _ => .ok []
    llm := fun s => .ok s
    search := fun _ _ => .ok []
    doc_count := 1
    chain_ready := true
    setOrder := dedupKeepFirst }

def q_c3 : String := "What are your clinic hours?"

def h_c3 : List Turn := [⟨"user", "Hi"⟩]

/-- C3 counterexample: with a non-empty history and an environment whose LLM
oracle echoes the prompt it receives, the answer returned by `ask` is the
instruction template with the *contextualized* query in the question slot,
not the original question — `qa_chain.invoke(contextualized_question)` passes
its whole input through `RunnablePassthrough` into the `question` slot. -/
theorem c3_counterexample :
    (ask env_c3 q_c3 h_c3).answer = template_fill (format_docs []) (contextualize q_c3 h_c3) ∧
    (ask env_c3 q_c3 h_c3).answer ≠ template_fill (format_docs []) q_c3 := by
  constructor
  · decide
  · decide

/-- C3 amended: for every question and non-empty history, the generation
step fills the template\x27s question slot with the contextualized query (the
same string used as the retrieval query), which differs from the original
question; the answer returned by `ask` is the LLM\x27s output on that prompt. -/
theorem c3_question_slot (env : Env) (q : String) (h : List Turn)
    (docs : List Doc) (ans : String)
    (hconv : (is_conversational_query q).1 = false)
    (hready : env.chain_ready = true) (hcount : env.doc_count ≠ 0)
    (hh : h ≠ [])
    (hret : env.retrieve (contextualize q h) = .ok docs)
    (hllm : env.llm (template_fill (format_docs docs) (contextualize q h)) = .ok ans) :
    contextualize q h ≠ q ∧
    (∀ sr, env.search q 5 = .ok sr → (ask env q h).answer = ans) := by
  constructor
  · obtain ⟨t, ts, rfl⟩ := List.exists_cons_of_ne_nil hh
    intro heq
    have hl := congrArg String.length heq
    simp only [contextualize] at hl
    rw [String.length_append, String.length_append, String.length_append] at hl
    have h23 : ("Previous conversation:\n" : String).length = 23 := by decide
    have h20 : ("\n\nCurrent question: " : String).length = 20 := by decide
    omega
  · intro sr hsr
    rw [ask_of_ok hconv hready hcount (askTry_of_oracles hret hllm hsr)]

theorem c3_question_slot_witness :
    contextualize q_c3 h_c3 ≠ q_c3 ∧
    (ask env_c3 q_c3 h_c3).answer = template_fill (format_docs []) (contextualize q_c3 h_c3) :=
  ⟨(c3_question_slot env_c3 q_c3 h_c3 [] _ (by decide) rfl (by decide) (by decide) rfl rfl).1,
   (c3_question_slot env_c3 q_c3 h_c3 [] _ (by decide) rfl (by decide) (by decide) rfl rfl).2 [] rfl⟩

/-! ## C4: greeting interception -/

def env_c4 : Env :=
  { retrieve := fun _ => .error "not initialized"
    llm := fun _ => .error "not initialized"
    search := fun _ _ => .error "not initialized"
    doc_count := 0
    chain_ready := false
    setOrder := dedupKeepFirst }

/-- C4 counterexample: "hi!" is a greeting phrase followed by a punctuation
character, but `_is_conversational_query` only tests a trailing `" "` or `","`
after a greeting, so "hi!" is not intercepted: on an uninitialized engine it
falls through to the readiness guard and gets the "not initialized" answer
with confidence "low", not the greeting answer with confidence "high". -/
theorem c4_counterexample :
    is_conversational_query "hi!" = (false, "") ∧
    ask env_c4 "hi!" [] = not_ready_response ∧
    (ask env_c4 "hi!" []).confidence = "low" ∧
    (ask env_c4 "hi!" []).answer ≠ greeting_answer := by
  refine ⟨by decide, by decide, by decide, by decide⟩

/-- C4 amended: for every question whose lowercased, stripped form equals a
greeting phrase or starts with a greeting phrase followed by a space or a
comma (the only two trailing characters the code tests), `ask` returns the
fixed greeting answer with confidence "high" and an empty sources list,
regardless of the environment (hence of any index state). -/
theorem c4_greeting (env : Env) (q : String) (h : List Turn)
    (hg : ∃ g ∈ greetings,
      strStrip (strLower q) = g ∨
      strStartsWith (strStrip (strLower q)) (g ++ " ") = true ∨
      strStartsWith (strStrip (strLower q)) (g ++ ",") = true) :
    ask env q h =
      { answer := greeting_answer
        sources := []
        confidence := "high"
        follow_up_suggestions := conv_follow_ups } := by
  have hcond : (greetings.any fun g =>
      decide (strStrip (strLower q) = g)
        || strStartsWith (strStrip (strLower q)) (g ++ " ")
        || strStartsWith (strStrip (strLower q)) (g ++ ",")) = true := by
    rw [List.any_eq_true]
    obtain ⟨g, hg1, hg2⟩ := hg
    refine ⟨g, hg1, ?_⟩
    rcases hg2 with h1 | h1 | h1 <;> simp [h1]
  have hic : is_conversational_query q = (true, greeting_answer) := by
    simp only [is_conversational_query]
    rw [if_pos hcond]
  simp [ask, hic]

theorem c4_greeting_witness :
    ask env_c4 "Hello there, I have a question" [] =
      { answer := greeting_answer
        sources := []
        confidence := "high"
        follow_up_suggestions := conv_follow_ups } :=
  c4_greeting env_c4 "Hello there, I have a question" []
    ⟨"hello", by decide, Or.inr (Or.inl (by decide))⟩

/-! ## C10: rounding before tiering -/

/-- C10: the stored relevance score is the distance-converted similarity
rounded to three decimals, and the confidence tier is computed from the
rounded value; a raw similarity of 0.6001 (distance 0.7998) would tier "high"
but rounds to 0.600 and therefore tiers "medium". -/
theorem c10_rounded_confidence (env : Env) (q : String) (h : List Turn)
    (doc : Doc) (rest : List Doc) (d : ℚ) (ans : String)
    (hconv : (is_conversational_query q).1 = false)
    (hready : env.chain_ready = true) (hcount : env.doc_count ≠ 0)
    (hret : env.retrieve (contextualize q h) = .ok (doc :: rest))
    (hllm : env.llm (template_fill (format_docs (doc :: rest)) (contextualize q h)) = .ok ans)
    (hsr : env.search q 5 = .ok [(doc, d)]) :
    (∃ tl, (ask env q h).sources = mk_source [(doc, d)] doc :: tl) ∧
    (mk_source [(doc, d)] doc).relevance_score = pyRound3 (convert_distance_to_similarity d) ∧
    (ask env q h).confidence = tier_spec (pyRound3 (convert_distance_to_similarity d)) ∧
    convert_distance_to_similarity (3999/5000) = 6001/10000 ∧
    ((6001:ℚ)/10000 > 3/5) ∧
    pyRound3 (6001/10000) = 3/5 ∧
    tier_spec ((6001:ℚ)/10000) = "high" ∧
    tier_spec (pyRound3 (6001/10000)) = "medium" := by
  have hask := ask_of_ok hconv hready hcount (askTry_of_oracles hret hllm hsr)
  have hscore : (mk_source [(doc, d)] doc).relevance_score
      = pyRound3 (convert_distance_to_similarity d) := by
    simp [mk_source, List.find?]
  have hsources : (ask env q h).sources
      = mk_source [(doc, d)] doc :: (rest.take 2).map (mk_source [(doc, d)]) := by
    rw [hask]; simp [mk_sources]
  refine ⟨⟨(rest.take 2).map (mk_source [(doc, d)]), hsources⟩, hscore, ?_, ?_, by norm_num,
    pyRound3_6001, ?_, ?_⟩
  · rw [hask]
    show confidence_of (mk_sources [(doc, d)] (doc :: rest)) = _
    rw [confidence_of_eq_tier]
    have : (mk_sources [(doc, d)] (doc :: rest)).head?
        = some (mk_source [(doc, d)] doc) := by simp [mk_sources]
    rw [this]
    show tier_spec (mk_source [(doc, d)] doc).relevance_score = _
    rw [hscore]
  · unfold convert_distance_to_similarity
    rw [if_neg (by norm_num)]
    norm_num
  · unfold tier_spec; rw [if_pos (by norm_num)]
  · rw [pyRound3_6001]
    unfold tier_spec; rw [if_neg (by norm_num), if_pos (by norm_num)]

def env_c10 : Env :=
  { retrieve := fun _ => .ok [doc_w]
    llm := fun _ => .ok "We are open 9am-5pm."
    search := fun _ _ => .ok [(doc_w, 3999/5000)]
    doc_count := 1
    chain_ready := true
    setOrder := dedupKeepFirst }

theorem c10_rounded_confidence_witness :
    (ask env_c10 "When are you open?" []).confidence
      = tier_spec (pyRound3 (convert_distance_to_similarity (3999/5000))) :=
  (c10_rounded_confidence env_c10 "When are you open?" [] doc_w [] (3999/5000)
    "We are open 9am-5pm." (by decide) rfl (by decide) rfl rfl rfl).2.2.1

/-! ## C8: invariants of the returned sources -/

lemma ask_sources_cases (env : Env) (q : String) (h : List Turn) :
    (ask env q h).sources = [] ∨
    ∃ docs sr, env.retrieve (contextualize q h) = .ok docs ∧
      (ask env q h).sources = mk_sources sr docs := by
  by_cases hc : (is_conversational_query q).1 = true
  · left; simp [ask, hc]
  · have hc' : (is_conversational_query q).1 = false := by
      simpa using hc
    by_cases hr : env.chain_ready = true
    · by_cases hd : env.doc_count = 0
      · left; simp [ask, hc', hr, hd, no_docs_response]
      · cases hA : askTry env q h with
        | error e =>
          left
          rw [ask_of_error hc' hr hd hA]
          rfl
        | ok r =>
          obtain ⟨docs, ans, sr, hret, hllm, hsr, hrec⟩ := askTry_ok_inv hA
          right
          exact ⟨docs, sr, hret, by rw [ask_of_ok hc' hr hd hA, hrec]⟩
    · left
      have hr' : env.chain_ready = false := by simpa using hr
      simp [ask, hc', hr', not_ready_response]

/-- C8: in every result of `ask` the sources list has at most 3 entries and
at most as many entries as retrieved candidates, every relevance score lies
in [0,1], and every source content is at most 203 characters: the document
content truncated to 200 characters plus an ellipsis exactly when the
original exceeds 200 characters, the unmodified content otherwise. -/
theorem c8_sources_invariants (env : Env) (q : String) (h : List Turn) :
    (ask env q h).sources.length ≤ 3 ∧
    (∀ s ∈ (ask env q h).sources,
      0 ≤ s.relevance_score ∧ s.relevance_score ≤ 1 ∧ s.content.length ≤ 203) ∧
    (∀ docs, env.retrieve (contextualize q h) = .ok docs →
      (ask env q h).sources.length ≤ docs.length ∧
      ∀ s ∈ (ask env q h).sources, ∃ doc ∈ docs,
        (doc.page_content.length > 200 → s.content = pySlice doc.page_content 200 ++ "...") ∧
        (doc.page_content.length ≤ 200 → s.content = doc.page_content)) := by
  rcases ask_sources_cases env q h with hnil | ⟨docs, sr, hret, hsrc⟩
  · rw [hnil]
    refine ⟨by simp, by simp, fun docs _ => ⟨by simp, by simp⟩⟩
  · rw [hsrc]
    refine ⟨(mk_sources_length_le sr docs).1, fun s hs => ?_, fun docs' hret' => ?_⟩
    · obtain ⟨doc, _, rfl⟩ := mem_mk_sources hs
      exact ⟨(mk_source_score_bounds sr doc).1, (mk_source_score_bounds sr doc).2,
        mk_source_content_length sr doc⟩
    · have hdd : docs' = docs := by
        rw [hret] at hret'
        exact (Except.ok.injEq _ _ ▸ hret').symm
      subst hdd
      refine ⟨(mk_sources_length_le sr docs').2, fun s hs => ?_⟩
      obtain ⟨doc, hdoc, rfl⟩ := mem_mk_sources hs
      exact ⟨doc, hdoc, (mk_source_content_cases sr doc).1, (mk_source_content_cases sr doc).2⟩

theorem c8_sources_invariants_witness :
    (ask env_c10 "When are you open?" []).sources.length ≤ [doc_w].length ∧
    (ask env_c10 "When are you open?" []).sources.length ≤ 3 :=
  ⟨((c8_sources_invariants env_c10 "When are you open?" []).2.2 [doc_w] rfl).1,
   (c8_sources_invariants env_c10 "When are you open?" []).1⟩

/-! ## C6: follow-up generation -/

/-- C6 counterexample: with an empty retrieved-documents list no suggestion
qualifies, yet `_generate_follow_ups` returns the fixed two-element generic
list of line 347 — not the single generic fallback suggestion. -/
theorem c6_counterexample :
    generate_follow_ups "Do you validate parking?" [] dedupKeepFirst
      = ["What are your clinic hours?", "What insurance do you accept?"] ∧
    generate_follow_ups "Do you validate parking?" [] dedupKeepFirst
      ≠ [fallback_suggestion] := by
  constructor
  · decide
  · decide

/-- C6 amended: `_generate_follow_ups` returns the fixed two-element generic
list when the retrieved-documents list is empty; otherwise it takes 2 distinct
non-empty categories in the runtime set-iteration order (modelled by the
arbitrary `o`, not guaranteed to be encounter order), takes up to 2
suggestions from each category\x27s fixed list skipping any appearing
case-insensitively in the question, deduplicates, returns at most 2 in total
and never an empty list, and returns the single generic fallback when none
qualify. -/
theorem c6_follow_ups (q : String) (docs : List Doc) (o : List String → List String) :
    (generate_follow_ups q docs o).length ≤ 2 ∧
    generate_follow_ups q docs o ≠ [] ∧
    (generate_follow_ups q docs o).Nodup ∧
    (docs = [] → generate_follow_ups q docs o = generic_suggestions) ∧
    (docs ≠ [] →
      generate_follow_ups q docs o = [fallback_suggestion] ∨
      ∀ s ∈ generate_follow_ups q docs o,
        ∃ c ∈ (o (doc_categories docs)).take 2, ∃ sl,
          category_suggestions c = some sl ∧ s ∈ sl.take 2 ∧
          strIn (strLower s) (strLower q) = false) := by
  by_cases hd : docs = []
  · subst hd
    have hg : generate_follow_ups q [] o = generic_suggestions := rfl
    refine ⟨?_, ?_, ?_, fun _ => hg, fun hne => absurd rfl hne⟩ <;> rw [hg] <;> decide
  · have hne : docs.isEmpty = false := by
      cases docs with
      | nil => exact absurd rfl hd
      | cons a l => rfl
    have hgen : generate_follow_ups q docs o =
        (if (dedupKeepFirst (((o (doc_categories docs)).take 2).flatMap (fun category =>
          match category_suggestions category with
          | some suggestions =>
              (suggestions.take 2).filter (fun s => !(strIn (strLower s) (strLower q)))
          | none => []))).isEmpty then [fallback_suggestion]
        else (dedupKeepFirst (((o (doc_categories docs)).take 2).flatMap (fun category =>
          match category_suggestions category with
          | some suggestions =>
              (suggestions.take 2).filter (fun s => !(strIn (strLower s) (strLower q)))
          | none => []))).take 2) := by
      simp only [generate_follow_ups, hne, Bool.false_eq_true, if_false]
    rw [hgen]
    by_cases hdd : (dedupKeepFirst (((o (doc_categories docs)).take 2).flatMap (fun category =>
        match category_suggestions category with
        | some suggestions =>
            (suggestions.take 2).filter (fun s => !(strIn (strLower s) (strLower q)))
        | none => []))).isEmpty = true
    · rw [if_pos hdd]
      exact ⟨by decide, by decide, by decide, fun hnil => absurd hnil hd, fun _ => Or.inl rfl⟩
    · rw [if_neg hdd]
      have hddne : dedupKeepFirst (((o (doc_categories docs)).take 2).flatMap (fun category =>
          match category_suggestions category with
          | some suggestions =>
              (suggestions.take 2).filter (fun s => !(strIn (strLower s) (strLower q)))
          | none => [])) ≠ [] := by
        intro hnil
        rw [hnil] at hdd
        exact hdd rfl
      refine ⟨List.length_take_le 2 _, ?_, ?_, fun hnil => absurd hnil hd, fun _ => Or.inr ?_⟩
      · cases hcc : dedupKeepFirst (((o (doc_categories docs)).take 2).flatMap (fun category =>
            match category_suggestions category with
            | some suggestions =>
                (suggestions.take 2).filter (fun s => !(strIn (strLower s) (strLower q)))
            | none => [])) with
        | nil => exact absurd hcc hddne
        | cons a l => simp [hcc]
      · exact (List.take_sublist 2 _).nodup (nodup_dedupKeepFirst _)
      · intro s hs
        have hs1 : s ∈ dedupKeepFirst (((o (doc_categories docs)).take 2).flatMap (fun category =>
            match category_suggestions category with
            | some suggestions =>
                (suggestions.take 2).filter (fun s => !(strIn (strLower s) (strLower q)))
            | none => [])) := List.mem_of_mem_take hs
        have hs2 := mem_dedupKeepFirst.mp hs1
        obtain ⟨c, hc, hsc⟩ := List.mem_flatMap.mp hs2
        refine ⟨c, hc, ?_⟩
        cases hcs : category_suggestions c with
        | none => rw [hcs] at hsc; cases hsc
        | some sl =>
          rw [hcs] at hsc
          have := List.mem_filter.mp hsc
          exact ⟨sl, rfl, this.1, by simpa using this.2⟩

def doc_c6 : Doc :=
  { page_content := "Category: policies\nQuestions: q\nAnswer: a\nKeywords: k"
    meta_tag := some "policies_0"
    meta_category := some "policies" }

theorem c6_follow_ups_witness :
    generate_follow_ups "When are you open?" [doc_c6] dedupKeepFirst ≠ [] ∧
    (generate_follow_ups "When are you open?" [doc_c6] dedupKeepFirst).length ≤ 2 ∧
    (generate_follow_ups "When are you open?" [doc_c6] dedupKeepFirst = [fallback_suggestion] ∨
      ∀ s ∈ generate_follow_ups "When are you open?" [doc_c6] dedupKeepFirst,
        ∃ c ∈ (dedupKeepFirst (doc_categories [doc_c6])).take 2, ∃ sl,
          category_suggestions c = some sl ∧ s ∈ sl.take 2 ∧
          strIn (strLower s) (strLower "When are you open?") = false) :=
  ⟨(c6_follow_ups "When are you open?" [doc_c6] dedupKeepFirst).2.1,
   (c6_follow_ups "When are you open?" [doc_c6] dedupKeepFirst).1,
   (c6_follow_ups "When are you open?" [doc_c6] dedupKeepFirst).2.2.2.2 (by decide)⟩

/-! ## C9: determinism of document composition -/

def intent_c9 : Intent :=
  { tag := some "mix_0"
    category := some "cats"
    patterns := some ["insurance hours"]
    responses := some ["yes"] }

/-- A second valid model of `list(set(·))`: same members, no duplicates,
opposite order — as another interpreter process with a different hash seed
may produce. -/
def revSetOrder (l : List String) : List String := (dedupKeepFirst l).reverse

/-- C9 counterexample: composing the same intent under two valid set-iteration
orders (two interpreter processes with different hash seeds) yields different
`page_content` strings — the keyword section\x27s word order follows
`list(set(...))`, which is hash-seed dependent, so byte-identity of the
composed content is not guaranteed across runs. -/
theorem c9_counterexample :
    (prepare_document intent_c9 dedupKeepFirst).page_content
      ≠ (prepare_document intent_c9 revSetOrder).page_content := by
  decide

/-- C9 amended: composition is deterministic up to the keyword section\x27s
word order: for any two valid set-iteration orders the composed documents
have identical tag and category metadata and keyword lists that are
permutations of each other, and whenever the two orders agree on the
intent\x27s keyword list (in particular within a single process, whose hash
seed is fixed) the composed `page_content` is byte-identical. -/
theorem c9_composition (i : Intent) (o₁ o₂ : List String → List String)
    (h₁ : IsSetOrder o₁) (h₂ : IsSetOrder o₂) :
    (prepare_document i o₁).meta_tag = (prepare_document i o₂).meta_tag ∧
    (prepare_document i o₁).meta_category = (prepare_document i o₂).meta_category ∧
    (extract_keywords (intent_category i) (intent_patterns i) (intent_responses i) o₁).Perm
      (extract_keywords (intent_category i) (intent_patterns i) (intent_responses i) o₂) ∧
    (o₁ (raw_keywords (intent_category i) (intent_patterns i) (intent_responses i))
        = o₂ (raw_keywords (intent_category i) (intent_patterns i) (intent_responses i)) →
      (prepare_document i o₁).page_content = (prepare_document i o₂).page_content) := by
  refine ⟨rfl, rfl, ?_, fun heq => ?_⟩
  · obtain ⟨hn1, hm1⟩ := h₁ (raw_keywords (intent_category i) (intent_patterns i) (intent_responses i))
    obtain ⟨hn2, hm2⟩ := h₂ (raw_keywords (intent_category i) (intent_patterns i) (intent_responses i))
    exact perm_of_nodup_mem_iff hn1 hn2 (fun x => (hm1 x).trans (hm2 x).symm)
  · simp only [prepare_document, extract_keywords]
    rw [heq]

theorem c9_composition_witness :
    (extract_keywords (intent_category intent_c9) (intent_patterns intent_c9)
        (intent_responses intent_c9) dedupKeepFirst).Perm
      (extract_keywords (intent_category intent_c9) (intent_patterns intent_c9)
        (intent_responses intent_c9) revSetOrder) :=
  (c9_composition intent_c9 dedupKeepFirst revSetOrder
    isSetOrder_dedupKeepFirst isSetOrder_rev).2.2.1

end MedFAQ
